import Mathlib

/-!
Verification of the VGraphics handle allocator and ITex indexed-texture
compiler (src/VGraphics/graphics.c) against its natural-language
specification.

Modelling conventions (shallow embedding):
* C arrays of fixed size are modelled as total functions `Nat → Nat`
  together with `Option`-guarded operations: an array access whose index
  is outside the array's declared bounds is undefined behavior in C and
  is modelled as `none`.  `none` therefore marks undefined behavior, not
  a reported error: every function below that returns `Option` is a
  `void` (or plain-value) C function with no error channel at all.
* `unsigned char` stores truncate to the low byte (`% 256`), matching
  the C integer conversion.  Coordinates and sizes are modelled as `Nat`
  (the claims under study only concern the nonnegative range; a negative
  C `int` index is likewise out of bounds).
* GPU-side objects (`glGenTextures` / `glGenLists` names) are abstracted
  by a caller-supplied nonzero `Nat`: the slot tables `_texBuffer` /
  `_shapeBuffer` only ever test names against `NULL` (0 = empty slot).
-/

namespace VGraphics

/-- `VG_TEXTURES_MAX` (0x400) from graphics_old.h. -/
def VG_TEXTURES_MAX : Nat := 1024

/-- `VG_SHAPES_MAX` (0x300) from graphics_old.h. -/
def VG_SHAPES_MAX : Nat := 768

/-- `VG_ITEX_COLORS_MAX` (0x10) from graphics_old.h. -/
def VG_ITEX_COLORS_MAX : Nat := 16

/-- `VG_ITEX_SIZE_MAX` (0x40) from graphics_old.h. -/
def VG_ITEX_SIZE_MAX : Nat := 64

/-! ## Handle allocator (`findFreeTexture` / `findFreeShape`,
`vgCreateTexture` / `vgCompileShape` / `vgDestroyTexture`) -/

/-- The texture-side global state: `_texBuffer` (GL texture name per
slot, `0` = `NULL` = empty) and `_texCount`.  `_texCount` is read only
by dead code (`indexActual` in `findFreeTexture`, assigned and never
used) and decremented by `vgDestroyTexture`. -/
structure TexState where
  texBuffer : Nat → Nat
  texCount : Int

/-- The scanning loop shared by `findFreeTexture` and `findFreeShape`:
`for (i = 0; i < rem; i++) if (t[i] == 0) return i;`.  The `none`
result models the loop falling through without ever executing a
`return` statement — undefined behavior in C (both functions are
declared to return a value), not a reported error. -/
def scanSlots (t : Nat → Nat) : Nat → Nat → Option Nat
  | _, 0 => none
  | i, rem + 1 => if t i = 0 then some i else scanSlots t (i + 1) rem

/-- `findFreeTexture` (graphics.c:182-190): scans
`_texBuffer[i % VG_TEXTURES_MAX]` for `i` in `[0, VG_TEXTURES_MAX)`.
The loop body also computes `indexActual = (_texCount / 2) + i`, which
is dead code (never used), so it does not appear in the model.  The
`% VG_TEXTURES_MAX` of the source is kept literally (it is the
identity on the scanned range). -/
def findFreeTexture (t : Nat → Nat) : Option Nat :=
  scanSlots (fun i => t (i % VG_TEXTURES_MAX)) 0 VG_TEXTURES_MAX

/-- `findFreeShape` (graphics.c:192-199): scans `_shapeBuffer[i]` for
`i` in `[0, VG_SHAPES_MAX)`. -/
def findFreeShape (t : Nat → Nat) : Option Nat :=
  scanSlots t 0 VG_SHAPES_MAX

/-- `vgCreateTexture` (graphics.c:723-773), restricted to its effect on
the slot table: `handle = findFreeTexture(); glGenTextures(1,
&_texBuffer[handle]); ...; return handle;`.  `glName` abstracts the
fresh (nonzero) GL texture name produced by `glGenTextures`.  `none`
propagates the undefined fall-through of `findFreeTexture` on a full
table.  Note the function does not touch `_texCount`. -/
def vgCreateTexture (glName : Nat) (s : TexState) : Option (Nat × TexState) :=
  match findFreeTexture s.texBuffer with
  | none => none
  | some h =>
    some (h, { s with texBuffer := fun i => if i = h then glName else s.texBuffer i })

/-- `vgCompileShape` (graphics.c:848-864), restricted to its effect on
the slot table: `handle = findFreeShape(); _shapeBuffer[handle] =
glGenLists(1); ...; return handle;`.  `glListName` abstracts the fresh
(nonzero) display-list name. -/
def vgCompileShape (glListName : Nat) (t : Nat → Nat) : Option (Nat × (Nat → Nat)) :=
  match findFreeShape t with
  | none => none
  | some h => some (h, fun i => if i = h then glListName else t i)

/-- `vgDestroyTexture` (graphics.c:775-780):
`glDeleteTextures(1, &_texBuffer[tex]); _texBuffer[tex] = NULL;
_texCount--;`.  There is no validity check of any kind: an in-range
handle — live or already empty — is unconditionally cleared and the
count decremented; a handle `≥ VG_TEXTURES_MAX` indexes `_texBuffer`
out of bounds (undefined behavior, modelled `none`). -/
def vgDestroyTexture (s : TexState) (tex : Nat) : Option TexState :=
  if tex < VG_TEXTURES_MAX then
    some { texBuffer := fun i => if i = tex then 0 else s.texBuffer i,
           texCount := s.texCount - 1 }
  else none

/-- Claim harness: run `n` sequential allocations with the given
allocation step (the caller of `findFree*` immediately populates the
returned slot, which is what `vgCreateTexture` / `vgCompileShape` do),
collecting the returned handles in order. -/
def allocSequence {α : Type} (step : α → Option (Nat × α)) : Nat → α → Option (List Nat × α)
  | 0, s => some ([], s)
  | n + 1, s =>
    match step s with
    | none => none
    | some (h, s') =>
      match allocSequence step n s' with
      | none => none
      | some (hs, s'') => some (h :: hs, s'')

/-- Proof scaffolding: the slot table in which exactly the slots below
`k` are populated (with the representative nonzero name 1). -/
def tableK (k : Nat) : Nat → Nat := fun i => if i < k then 1 else 0

/-- The all-empty texture table with `_texCount = 0`, the state set up
by `vgInit`. -/
def texInit : TexState := ⟨fun _ => 0, 0⟩

/-! ## ITex compiler (`vgITexData*`, graphics.c:964-1034) -/

/-- The ITex global state: the palette channel arrays
`_icolorR/G/B/A[VG_ITEX_COLORS_MAX]` (each entry an `unsigned char`)
and the grid `_indexes[VG_ITEX_SIZE_MAX][VG_ITEX_SIZE_MAX]` (each cell
an `unsigned short` palette index; `vgITexDataIndex(index, x, y)`
writes `_indexes[x][y]`, so the first grid argument is the x
coordinate).  Only palette indices below `VG_ITEX_COLORS_MAX` and grid
coordinates below `VG_ITEX_SIZE_MAX` correspond to allocated C memory;
accesses outside those ranges are out of bounds. -/
structure ITexState where
  icolorR : Nat → Nat
  icolorG : Nat → Nat
  icolorB : Nat → Nat
  icolorA : Nat → Nat
  indexes : Nat → Nat → Nat

/-- The initial ITex state: the static arrays are zero-initialized
(`= { 0 }` in graphics.c:92-96). -/
def itexInit : ITexState :=
  ⟨fun _ => 0, fun _ => 0, fun _ => 0, fun _ => 0, fun _ _ => 0⟩

/-- `vgITexDataClear` (graphics.c:964-981): sets every palette entry
`i < VG_ITEX_COLORS_MAX` to `NULL` (0) on all four channels, and every
grid cell with both coordinates below `VG_ITEX_SIZE_MAX` to `NULL`
(0). -/
def vgITexDataClear (s : ITexState) : ITexState :=
  { icolorR := fun i => if i < VG_ITEX_COLORS_MAX then 0 else s.icolorR i,
    icolorG := fun i => if i < VG_ITEX_COLORS_MAX then 0 else s.icolorG i,
    icolorB := fun i => if i < VG_ITEX_COLORS_MAX then 0 else s.icolorB i,
    icolorA := fun i => if i < VG_ITEX_COLORS_MAX then 0 else s.icolorA i,
    indexes := fun i j =>
      if i < VG_ITEX_SIZE_MAX ∧ j < VG_ITEX_SIZE_MAX then 0 else s.indexes i j }

/-- `vgITexDataColor` (graphics.c:983-989): `_icolorR[index] = r;` and
likewise for g, b, a.  The stores truncate the `int` arguments to
`unsigned char` (`% 256`).  There is no range check whatsoever: for
`index ≥ VG_ITEX_COLORS_MAX` the four stores are out-of-bounds writes
— undefined behavior (`none`), not a reported error (the function
returns `void` and has no error channel). -/
def vgITexDataColor (s : ITexState) (index r g b a : Nat) : Option ITexState :=
  if index < VG_ITEX_COLORS_MAX then
    some { s with
      icolorR := fun i => if i = index then r % 256 else s.icolorR i,
      icolorG := fun i => if i = index then g % 256 else s.icolorG i,
      icolorB := fun i => if i = index then b % 256 else s.icolorB i,
      icolorA := fun i => if i = index then a % 256 else s.icolorA i }
  else none

/-- `vgITexDataIndex` (graphics.c:991-994): `_indexes[x][y] = index;`.
No bounds check: a coordinate outside `[0, VG_ITEX_SIZE_MAX)` makes
the store an out-of-bounds write — undefined behavior (`none`), not a
reported error. -/
def vgITexDataIndex (s : ITexState) (index x y : Nat) : Option ITexState :=
  if x < VG_ITEX_SIZE_MAX ∧ y < VG_ITEX_SIZE_MAX then
    some { s with
      indexes := fun a b => if a = x ∧ b = y then index else s.indexes a b }
  else none

/-- `vgITexDataIndexArray` (graphics.c:996-1003):
`for (i = 0; i < size; i++) _indexes[vx[i]][vy[i]] = index;`.  The two
C pointer arguments plus `size` are modelled as one list of `(x, y)`
pairs.  Each iteration performs the same unchecked store as
`vgITexDataIndex`; the first out-of-range pair makes the whole call
undefined (`none`). -/
def vgITexDataIndexArray (s : ITexState) (index : Nat) : List (Nat × Nat) → Option ITexState
  | [] => some s
  | (x, y) :: rest =>
    if x < VG_ITEX_SIZE_MAX ∧ y < VG_ITEX_SIZE_MAX then
      vgITexDataIndexArray
        { s with indexes := fun a b => if a = x ∧ b = y then index else s.indexes a b }
        index rest
    else none

/-- Claim harness: the sequence of single-cell `vgITexDataIndex` calls
`vgITexDataIndex(index, xs[i], ys[i])` for `i = 0..n-1`, in order,
against which `vgITexDataIndexArray` is compared (claim C10). -/
def seqIndexCalls (s : ITexState) (index : Nat) : List (Nat × Nat) → Option ITexState
  | [] => some s
  | (x, y) :: rest =>
    match vgITexDataIndex s index x y with
    | none => none
    | some s' => seqIndexCalls s' index rest

/-- The four bytes appended for grid cell `(i, j)` by one iteration of
the `vgITexDataCompile` inner loop (graphics.c:1019-1024):
`colorIndex = _indexes[i][j]`, then
`colorBuffer[writeIndex + 0..3] = _icolorR/G/B/A[colorIndex]` (the
`(unsigned char)` casts are identities, the stored values already being
bytes). -/
def cellColors (s : ITexState) (i j : Nat) : List Nat :=
  [s.icolorR (s.indexes i j), s.icolorG (s.indexes i j),
   s.icolorB (s.indexes i j), s.icolorA (s.indexes i j)]

/-- The bytes produced by the inner loop `for (j = 0; j < n; j++)` of
`vgITexDataCompile` for a fixed outer index `i`: the 4-byte groups for
cells `(i, 0), (i, 1), ..., (i, n-1)`, in that order. -/
def colBytes (s : ITexState) (i : Nat) : Nat → List Nat
  | 0 => []
  | n + 1 => colBytes s i n ++ cellColors s i n

/-- The bytes produced by the full nested loop of `vgITexDataCompile`
(outer `for (i = 0; i < n; i++)` over the first coordinate, inner loop
over `height` cells): the blocks for `i = 0, 1, ..., n-1` in order. -/
def gridBytes (s : ITexState) (height : Nat) : Nat → List Nat
  | 0 => []
  | n + 1 => gridBytes s height n ++ colBytes s n height

/-- The intermediate `colorBuffer` built by `vgITexDataCompile`
(graphics.c:1013-1026).  The guard collects the in-boundedness of every
array access the loop performs (`_indexes[i][j]` needs both coordinates
below `VG_ITEX_SIZE_MAX`; `_icolorR[colorIndex]` needs the stored index
below `VG_ITEX_COLORS_MAX`): the loop has no side effect other than
filling the local buffer, so running it with any access out of bounds
(undefined behavior in C) is modelled as the whole result being
undefined (`none`), and otherwise the buffer is the in-order
concatenation of the 4-byte cell groups. -/
def compileBuffer (s : ITexState) (width height : Nat) : Option (List Nat) :=
  if ∀ i, i < width → ∀ j, j < height →
      i < VG_ITEX_SIZE_MAX ∧ j < VG_ITEX_SIZE_MAX ∧
      s.indexes i j < VG_ITEX_COLORS_MAX then
    some (gridBytes s height width)
  else none

/-- The observable outcome of one `vgITexDataCompile` call: the
returned handle, the texture table afterwards, and the call made into
the render surface — `some (width, height, pixels)` when
`vgCreateTexture` was invoked with that data, `none` when it was not
invoked at all. -/
structure CompileOutcome where
  handle : Nat
  table : TexState
  surfaceCall : Option (Nat × Nat × List Nat)

/-- `vgITexDataCompile` (graphics.c:1005-1034).  `allocOk` is the
oracle for the `malloc` of the intermediate buffer: on failure
(`colorBuffer == NULL`) the function returns 0 immediately — before the
loop and before any call into the render surface — leaving every global
(palette, grid, `_texBuffer`) untouched; 0 is not a distinct error
value (it is also the handle of slot 0).  On success it builds the
buffer, calls `vgCreateTexture(width, height, linear, repeat,
colorBuffer)` and returns that handle. -/
def vgITexDataCompile (allocOk : Bool) (glName : Nat) (s : ITexState)
    (t : TexState) (width height : Nat) : Option CompileOutcome :=
  match allocOk with
  | false => some ⟨0, t, none⟩
  | true =>
    match compileBuffer s width height with
    | none => none
    | some buf =>
      match vgCreateTexture glName t with
      | none => none
      | some (h, t') => some ⟨h, t', some (width, height, buf)⟩

lemma scanSlots_eq_none (t : Nat → Nat) :
    ∀ rem i, (∀ j, i ≤ j → j < i + rem → t j ≠ 0) → scanSlots t i rem = none := by
  intro rem
  induction rem with
  | zero => intro i _; rfl
  | succ r ih =>
    intro i hall
    have hi : t i ≠ 0 := hall i le_rfl (by omega)
    simp only [scanSlots, if_neg hi]
    exact ih (i + 1) fun j h1 h2 => hall j (by omega) (by omega)

lemma scanSlots_eq_some (t : Nat → Nat) :
    ∀ rem i k, i ≤ k → k < i + rem → t k = 0 →
      (∀ j, i ≤ j → j < k → t j ≠ 0) → scanSlots t i rem = some k := by
  intro rem
  induction rem with
  | zero => intro i k h1 h2; omega
  | succ r ih =>
    intro i k h1 h2 hk hall
    by_cases hi : t i = 0
    · have heq : i = k := by
        by_contra hne
        exact hall i le_rfl (by omega) hi
      subst heq
      simp only [scanSlots, if_pos hi]
    · simp only [scanSlots, if_neg hi]
      have hik : i ≠ k := fun h => hi (h ▸ hk)
      exact ih (i + 1) k (by omega) (by omega) hk
        fun j hj1 hj2 => hall j (by omega) hj2

/-- On a table whose slots `0..VG_TEXTURES_MAX` are all non-empty, the
`findFreeTexture` scan finds nothing: the C loop falls off the end
without a `return` (undefined behavior). -/
lemma findFreeTexture_full (t : Nat → Nat)
    (h : ∀ i, i < VG_TEXTURES_MAX → t i ≠ 0) : findFreeTexture t = none := by
  apply scanSlots_eq_none
  intro j h1 h2
  have hj : j < VG_TEXTURES_MAX := by omega
  rw [Nat.mod_eq_of_lt hj]
  exact h j hj

/-- Same for `findFreeShape`. -/
lemma findFreeShape_full (t : Nat → Nat)
    (h : ∀ i, i < VG_SHAPES_MAX → t i ≠ 0) : findFreeShape t = none := by
  apply scanSlots_eq_none
  intro j h1 h2
  exact h j (by omega)

lemma findFreeTexture_tableK (k : Nat) (hk : k < VG_TEXTURES_MAX) :
    findFreeTexture (tableK k) = some k := by
  apply scanSlots_eq_some _ _ _ _ (Nat.zero_le k) (by omega)
  · rw [Nat.mod_eq_of_lt hk]
    simp [tableK]
  · intro j _ hj
    rw [Nat.mod_eq_of_lt (by omega)]
    simp only [tableK, if_pos hj]
    exact one_ne_zero

lemma findFreeShape_tableK (k : Nat) (hk : k < VG_SHAPES_MAX) :
    findFreeShape (tableK k) = some k := by
  apply scanSlots_eq_some _ _ _ _ (Nat.zero_le k) (by omega)
  · simp [tableK]
  · intro j _ hj
    simp only [tableK, if_pos hj]
    exact one_ne_zero

lemma tableK_update (k : Nat) :
    (fun i => if i = k then 1 else tableK k i) = tableK (k + 1) := by
  funext i
  by_cases h : i = k
  · simp [tableK, h]
  · simp only [if_neg h, tableK]
    have : i < k ↔ i < k + 1 := by omega
    simp [this]

lemma vgCreateTexture_step (k : Nat) (c : Int) (hk : k < VG_TEXTURES_MAX) :
    vgCreateTexture 1 ⟨tableK k, c⟩ = some (k, ⟨tableK (k + 1), c⟩) := by
  simp only [vgCreateTexture, findFreeTexture_tableK k hk]
  rw [tableK_update]

lemma vgCompileShape_step (k : Nat) (hk : k < VG_SHAPES_MAX) :
    vgCompileShape 1 (tableK k) = some (k, tableK (k + 1)) := by
  simp only [vgCompileShape, findFreeShape_tableK k hk]
  rw [tableK_update]

/-- Generic run lemma: if the allocation step takes the `k`-th abstract
table to handle `k` and the `(k+1)`-th table, then `m` sequential
allocations from table `k` return handles `k, k+1, ..., k+m-1`. -/
lemma allocSequence_run {α : Type} (step : α → Option (Nat × α)) (tab : Nat → α)
    (cap : Nat) (hstep : ∀ k, k < cap → step (tab k) = some (k, tab (k + 1))) :
    ∀ m k, k + m ≤ cap →
      allocSequence step m (tab k) = some (List.range' k m, tab (k + m)) := by
  intro m
  induction m with
  | zero => intro k _; simp [allocSequence, List.range']
  | succ n ih =>
    intro k hkm
    have h1 : step (tab k) = some (k, tab (k + 1)) := hstep k (by omega)
    have h2 : allocSequence step n (tab (k + 1)) =
        some (List.range' (k + 1) n, tab (k + 1 + n)) := ih (k + 1) (by omega)
    simp only [allocSequence, h1, h2]
    rw [show k + 1 + n = k + (n + 1) by omega]
    rfl

lemma tableK_zero : tableK 0 = fun _ => 0 := by
  funext i; simp [tableK]

lemma texAllocRun :
    allocSequence (vgCreateTexture 1) VG_TEXTURES_MAX (⟨tableK 0, 0⟩ : TexState)
      = some (List.range' 0 VG_TEXTURES_MAX, ⟨tableK VG_TEXTURES_MAX, 0⟩) := by
  have h := allocSequence_run (vgCreateTexture 1)
    (fun k => (⟨tableK k, 0⟩ : TexState)) VG_TEXTURES_MAX
    (fun k hk => vgCreateTexture_step k 0 hk) VG_TEXTURES_MAX 0 (by omega)
  simpa using h

lemma shapeAllocRun :
    allocSequence (vgCompileShape 1) VG_SHAPES_MAX (tableK 0)
      = some (List.range' 0 VG_SHAPES_MAX, tableK VG_SHAPES_MAX) := by
  have h := allocSequence_run (vgCompileShape 1) tableK VG_SHAPES_MAX
    (fun k hk => vgCompileShape_step k hk) VG_SHAPES_MAX 0 (by omega)
  simpa using h

/-! ### Layout of the compiled buffer -/

lemma cellColors_length (s : ITexState) (i j : Nat) : (cellColors s i j).length = 4 := rfl

lemma colBytes_length (s : ITexState) (i : Nat) :
    ∀ n, (colBytes s i n).length = 4 * n := by
  intro n
  induction n with
  | zero => rfl
  | succ m ih =>
    simp only [colBytes, List.length_append, ih, cellColors_length]
    omega

lemma gridBytes_length (s : ITexState) (h : Nat) :
    ∀ n, (gridBytes s h n).length = 4 * h * n := by
  intro n
  induction n with
  | zero => simp [gridBytes]
  | succ m ih =>
    simp only [gridBytes, List.length_append, ih, colBytes_length]
    ring

lemma colBytes_decomp (s : ITexState) (i y : Nat) :
    ∀ h, y < h → ∃ post, colBytes s i h = colBytes s i y ++ (cellColors s i y ++ post) := by
  intro h
  induction h with
  | zero => intro hy; exact absurd hy (Nat.not_lt_zero y)
  | succ m ih =>
    intro hy
    by_cases hcase : y = m
    · subst hcase
      exact ⟨[], by simp [colBytes]⟩
    · obtain ⟨post, hpost⟩ := ih (by omega)
      exact ⟨post ++ cellColors s i m, by simp [colBytes, hpost, List.append_assoc]⟩

lemma gridBytes_decomp (s : ITexState) (h x : Nat) :
    ∀ w, x < w → ∃ post, gridBytes s h w = gridBytes s h x ++ (colBytes s x h ++ post) := by
  intro w
  induction w with
  | zero => intro hx; exact absurd hx (Nat.not_lt_zero x)
  | succ m ih =>
    intro hx
    by_cases hcase : x = m
    · subst hcase
      exact ⟨[], by simp [gridBytes]⟩
    · obtain ⟨post, hpost⟩ := ih (by omega)
      exact ⟨post ++ colBytes s m h, by simp [gridBytes, hpost, List.append_assoc]⟩

/-- The 4-byte group for cell `(x, y)` sits at byte offset
`(x * height + y) * 4` of the compiled buffer: a direct consequence of
the outer-x/inner-y loop order of `vgITexDataCompile`. -/
lemma gridBytes_cell (s : ITexState) (w h x y : Nat) (hx : x < w) (hy : y < h) :
    ((gridBytes s h w).drop ((x * h + y) * 4)).take 4 = cellColors s x y := by
  obtain ⟨p1, hp1⟩ := gridBytes_decomp s h x w hx
  obtain ⟨p2, hp2⟩ := colBytes_decomp s x y h hy
  rw [hp1, hp2]
  have hassoc :
      gridBytes s h x ++ ((colBytes s x y ++ (cellColors s x y ++ p2)) ++ p1)
        = (gridBytes s h x ++ colBytes s x y) ++ (cellColors s x y ++ (p2 ++ p1)) := by
    simp [List.append_assoc]
  have hlen : (gridBytes s h x ++ colBytes s x y).length = (x * h + y) * 4 := by
    rw [List.length_append, gridBytes_length, colBytes_length]; ring
  rw [hassoc, List.drop_left' hlen, List.take_left' (cellColors_length s x y)]

/-! ### The cleared state -/

lemma clear_indexes (s : ITexState) (x y : Nat)
    (hx : x < VG_ITEX_SIZE_MAX) (hy : y < VG_ITEX_SIZE_MAX) :
    (vgITexDataClear s).indexes x y = 0 := by
  simp [vgITexDataClear, hx, hy]

lemma clear_cellColors (s : ITexState) (i j : Nat)
    (hi : i < VG_ITEX_SIZE_MAX) (hj : j < VG_ITEX_SIZE_MAX) :
    cellColors (vgITexDataClear s) i j = [0, 0, 0, 0] := by
  have hidx : (vgITexDataClear s).indexes i j = 0 := clear_indexes s i j hi hj
  simp only [cellColors, hidx]
  simp [vgITexDataClear, VG_ITEX_COLORS_MAX]

lemma clear_colBytes (s : ITexState) (i : Nat) (hi : i < VG_ITEX_SIZE_MAX) :
    ∀ n, n ≤ VG_ITEX_SIZE_MAX →
      colBytes (vgITexDataClear s) i n = List.replicate (4 * n) 0 := by
  intro n
  induction n with
  | zero => intro _; rfl
  | succ m ih =>
    intro hm
    rw [colBytes, ih (by omega), clear_cellColors s i m hi (by omega),
      show 4 * (m + 1) = 4 * m + 4 by ring, List.replicate_add]
    rfl

lemma clear_gridBytes (s : ITexState) (h : Nat) (hh : h ≤ VG_ITEX_SIZE_MAX) :
    ∀ n, n ≤ VG_ITEX_SIZE_MAX →
      gridBytes (vgITexDataClear s) h n = List.replicate (4 * h * n) 0 := by
  intro n
  induction n with
  | zero => intro _; simp [gridBytes]
  | succ m ih =>
    intro hm
    rw [gridBytes, ih (by omega), clear_colBytes s m (by omega) h hh,
      show 4 * h * (m + 1) = 4 * h * m + 4 * h by ring, List.replicate_add]

/-! ## Claims -/

/-- Claim C1: starting from all-empty tables, `VG_TEXTURES_MAX`
(resp. `VG_SHAPES_MAX`) sequential allocations — each returning the
first empty slot scanning from 0 upward, the caller populating it —
return handles `0, 1, ..., N-1` in increasing order (first two
conjuncts: this part of the claim holds).  The claim's final part —
that the `(N+1)`th call, made with every slot non-empty, fails with
`ResourceExhausted` — is a code bug: on a fully non-empty table the
scan of `findFreeTexture` / `findFreeShape` matches no slot (last two
conjuncts), so the C loop falls off the end of a value-returning
function without a `return` statement — undefined behavior, with no
error of any kind reported. -/
theorem claim_c1_alloc_order_and_exhaustion :
    ((allocSequence (vgCreateTexture 1) VG_TEXTURES_MAX texInit).map Prod.fst
        = some (List.range VG_TEXTURES_MAX))
    ∧ ((allocSequence (vgCompileShape 1) VG_SHAPES_MAX (fun _ => 0)).map Prod.fst
        = some (List.range VG_SHAPES_MAX))
    ∧ (∀ t : Nat → Nat, (∀ i, i < VG_TEXTURES_MAX → t i ≠ 0) → findFreeTexture t = none)
    ∧ (∀ t : Nat → Nat, (∀ i, i < VG_SHAPES_MAX → t i ≠ 0) → findFreeShape t = none) := by
  refine ⟨?_, ?_, findFreeTexture_full, findFreeShape_full⟩
  · have h0 : texInit = (⟨tableK 0, 0⟩ : TexState) := by
      simp [texInit, tableK_zero]
    rw [h0, texAllocRun, List.range_eq_range']
    rfl
  · have h0 : (fun _ => 0 : Nat → Nat) = tableK 0 := tableK_zero.symm
    rw [h0, shapeAllocRun, List.range_eq_range']
    rfl

/-- Witness for C1: the exhaustion conjuncts applied to concrete fully
populated tables. -/
theorem claim_c1_witness :
    findFreeTexture (fun _ => 1) = none ∧ findFreeShape (fun _ => 1) = none :=
  ⟨claim_c1_alloc_order_and_exhaustion.2.2.1 (fun _ => 1) (fun _ _ => one_ne_zero),
   claim_c1_alloc_order_and_exhaustion.2.2.2 (fun _ => 1) (fun _ _ => one_ne_zero)⟩

/-- Claim C2: `vgITexDataCompile` iterates the grid with outer loop
`x in [0, width)` and inner loop `y in [0, height)`, appending the
4 RGBA bytes of cell `(x, y)`'s palette color at each step — so the
4-byte group of cell `(x, y)` sits at byte offset `(x*height + y)*4`
(first conjunct, for every state and in-range sizes), and in the
2x2 compile of the spec's row-major test (`setPalette(1,...)`,
`setPalette(2,...)`, `setCell(0,1,1)`, `setCell(1,0,2)`) the bytes of
cell `(0,1)` appear at offset 4, below offset 8 where the bytes of
cell `(1,0)` appear (second conjunct). -/
theorem claim_c2_compile_iteration_order :
    (∀ (s : ITexState) (w h x y : Nat), w ≤ VG_ITEX_SIZE_MAX → h ≤ VG_ITEX_SIZE_MAX →
      (∀ i, i < w → ∀ j, j < h → s.indexes i j < VG_ITEX_COLORS_MAX) →
      x < w → y < h →
      ∃ buf, compileBuffer s w h = some buf ∧ buf.length = w * h * 4 ∧
        (buf.drop ((x * h + y) * 4)).take 4 = cellColors s x y)
    ∧ (((vgITexDataColor (vgITexDataClear itexInit) 1 10 20 30 255).bind
          fun s1 => (vgITexDataColor s1 2 40 50 60 70).bind
          fun s2 => (vgITexDataIndex s2 1 0 1).bind
          fun s3 => (vgITexDataIndex s3 2 1 0).bind
          fun s4 => compileBuffer s4 2 2)
        = some [0, 0, 0, 0, 10, 20, 30, 255, 40, 50, 60, 70, 0, 0, 0, 0]) := by
  constructor
  · intro s w h x y hw hh hidx hx hy
    have hguard : ∀ i, i < w → ∀ j, j < h →
        i < VG_ITEX_SIZE_MAX ∧ j < VG_ITEX_SIZE_MAX ∧
        s.indexes i j < VG_ITEX_COLORS_MAX :=
      fun i hi j hj => ⟨by omega, by omega, hidx i hi j hj⟩
    refine ⟨gridBytes s h w, ?_, ?_, gridBytes_cell s w h x y hx hy⟩
    · simp only [compileBuffer, if_pos hguard]
    · rw [gridBytes_length]; ring
  · decide

/-- Witness for C2: the layout conjunct instantiated on the zero state
at cell `(1, 0)` of a 2x2 compile. -/
theorem claim_c2_witness :
    ∃ buf, compileBuffer itexInit 2 2 = some buf ∧ buf.length = 2 * 2 * 4 ∧
      (buf.drop ((1 * 2 + 0) * 4)).take 4 = cellColors itexInit 1 0 :=
  claim_c2_compile_iteration_order.1 itexInit 2 2 1 0
    (by decide) (by decide) (by decide) (by decide) (by decide)

/-- Claim C3: from a cleared compiler state, `setPalette(1,
10,20,30,255)`, `setCell(0,0,1)`, `compile(1,1,...)` produces exactly
the 4-byte buffer `[10, 20, 30, 255]`, which is passed to the render
surface's `createTexture` (handle 0 is returned from the empty texture
table). -/
theorem claim_c3_roundtrip :
    (((vgITexDataColor (vgITexDataClear itexInit) 1 10 20 30 255).bind
        fun s1 => (vgITexDataIndex s1 1 0 0).bind
        fun s2 => vgITexDataCompile true 7 s2 texInit 1 1).map
      fun o => (o.handle, o.surfaceCall))
      = some (0, some (1, 1, [10, 20, 30, 255])) := by
  decide

/-- Claim C4 counterexample: the claim says `setPalette` with palette
index 16 (= `VG_ITEX_COLORS_MAX`) fails with `PaletteIndexOutOfRange`
leaving palette and grid unchanged.  In the code the call is the
out-of-bounds write `_icolorR[16] = r` — undefined behavior, modelled
`none`: there is no range check, no error channel (the C function
returns `void`), and no defined unchanged-state result. -/
theorem claim_c4_counterexample :
    vgITexDataColor itexInit 16 10 20 30 255 = none := rfl

/-- Claim C4 amended: `vgITexDataColor` performs no range check: an
index below `VG_ITEX_COLORS_MAX` overwrites that palette entry
(truncating each channel to a byte) and touches nothing else; an index
at or above `VG_ITEX_COLORS_MAX` makes the four stores out-of-bounds
writes — undefined behavior, with no `PaletteIndexOutOfRange` error
and no unchanged-state guarantee. -/
theorem claim_c4_palette_store_unchecked (s : ITexState) (index r g b a : Nat) :
    (index < VG_ITEX_COLORS_MAX →
      vgITexDataColor s index r g b a = some { s with
        icolorR := fun i => if i = index then r % 256 else s.icolorR i,
        icolorG := fun i => if i = index then g % 256 else s.icolorG i,
        icolorB := fun i => if i = index then b % 256 else s.icolorB i,
        icolorA := fun i => if i = index then a % 256 else s.icolorA i })
    ∧ (VG_ITEX_COLORS_MAX ≤ index → vgITexDataColor s index r g b a = none) := by
  constructor
  · intro hin
    simp only [vgITexDataColor, if_pos hin]
  · intro hout
    simp only [vgITexDataColor, if_neg (by omega : ¬ index < VG_ITEX_COLORS_MAX)]

/-- Witness for the amended C4: both branches at concrete inputs. -/
theorem claim_c4_witness :
    vgITexDataColor itexInit 1 10 20 30 255 = some { itexInit with
      icolorR := fun i => if i = 1 then 10 else 0,
      icolorG := fun i => if i = 1 then 20 else 0,
      icolorB := fun i => if i = 1 then 30 else 0,
      icolorA := fun i => if i = 1 then 255 else 0 }
    ∧ vgITexDataColor itexInit 20 10 20 30 255 = none :=
  ⟨(claim_c4_palette_store_unchecked itexInit 1 10 20 30 255).1 (by decide),
   (claim_c4_palette_store_unchecked itexInit 20 10 20 30 255).2 (by decide)⟩

/-- Claim C5 counterexample: the claim says `setCell` (and `setCells`)
with a coordinate outside `[0, VG_ITEX_SIZE_MAX)` fails with
`GridCoordinateOutOfRange`.  In the code `vgITexDataIndex(1, 64, 0)` is
the out-of-bounds write `_indexes[64][0] = 1` — undefined behavior,
modelled `none`: no bounds check exists and no error is reported (the
C function returns `void`); likewise for `vgITexDataIndexArray` when
any listed coordinate is out of range. -/
theorem claim_c5_counterexample :
    vgITexDataIndex itexInit 1 64 0 = none
    ∧ vgITexDataIndexArray itexInit 1 [(0, 0), (64, 0)] = none := ⟨rfl, rfl⟩

/-- Claim C5 amended: neither `vgITexDataIndex` nor
`vgITexDataIndexArray` checks its coordinates: an in-range `(x, y)`
stores the palette index at that cell; a coordinate at or above
`VG_ITEX_SIZE_MAX` (in any listed pair, for the array version) makes
the store out of bounds — undefined behavior, with no
`GridCoordinateOutOfRange` error. -/
theorem claim_c5_cell_store_unchecked :
    (∀ (s : ITexState) (index x y : Nat),
      VG_ITEX_SIZE_MAX ≤ x ∨ VG_ITEX_SIZE_MAX ≤ y →
      vgITexDataIndex s index x y = none)
    ∧ (∀ (s : ITexState) (index : Nat) (ps : List (Nat × Nat)) (p : Nat × Nat),
      p ∈ ps → VG_ITEX_SIZE_MAX ≤ p.1 ∨ VG_ITEX_SIZE_MAX ≤ p.2 →
      vgITexDataIndexArray s index ps = none)
    ∧ (∀ (s : ITexState) (index x y : Nat),
      x < VG_ITEX_SIZE_MAX → y < VG_ITEX_SIZE_MAX →
      vgITexDataIndex s index x y = some { s with
        indexes := fun a b => if a = x ∧ b = y then index else s.indexes a b }) := by
  refine ⟨?_, ?_, ?_⟩
  · intro s index x y hout
    simp only [vgITexDataIndex,
      if_neg (by omega : ¬ (x < VG_ITEX_SIZE_MAX ∧ y < VG_ITEX_SIZE_MAX))]
  · intro s index ps
    induction ps generalizing s with
    | nil => intro p hp; exact absurd hp (List.not_mem_nil p)
    | cons hd rest ih =>
      intro p hp hout
      obtain ⟨x, y⟩ := hd
      rcases List.mem_cons.mp hp with hhd | hrest
      · subst hhd
        have hout' : VG_ITEX_SIZE_MAX ≤ x ∨ VG_ITEX_SIZE_MAX ≤ y := hout
        simp only [vgITexDataIndexArray,
          if_neg (by omega : ¬ (x < VG_ITEX_SIZE_MAX ∧ y < VG_ITEX_SIZE_MAX))]
      · by_cases hg : x < VG_ITEX_SIZE_MAX ∧ y < VG_ITEX_SIZE_MAX
        · simp only [vgITexDataIndexArray, if_pos hg]
          exact ih _ p hrest hout
        · simp only [vgITexDataIndexArray, if_neg hg]
  · intro s index x y hx hy
    simp only [vgITexDataIndex, if_pos (And.intro hx hy)]

/-- Witness for the amended C5: all three conjuncts at concrete
inputs. -/
theorem claim_c5_witness :
    vgITexDataIndex itexInit 1 0 64 = none
    ∧ vgITexDataIndexArray itexInit 2 [(1, 1), (5, 70)] = none
    ∧ vgITexDataIndex itexInit 3 2 5 = some { itexInit with
        indexes := fun a b => if a = 2 ∧ b = 5 then 3 else 0 } :=
  ⟨claim_c5_cell_store_unchecked.1 itexInit 1 0 64 (by decide),
   claim_c5_cell_store_unchecked.2.1 itexInit 2 [(1, 1), (5, 70)] (5, 70)
     (by decide) (by decide),
   claim_c5_cell_store_unchecked.2.2 itexInit 3 2 5 (by decide) (by decide)⟩

/-- Claim C6 counterexample: the claim says releasing an already-empty
handle fails with `InvalidHandle`.  On the all-empty table,
`vgDestroyTexture(5)` is instead a defined, non-failing call (first
conjunct) that moreover decrements `_texCount` to -1 (second conjunct)
— no validity check of any kind is performed and no error is reported
(the C function returns `void`). -/
theorem claim_c6_counterexample :
    (vgDestroyTexture texInit 5).isSome = true
    ∧ (vgDestroyTexture texInit 5).map TexState.texCount = some (-1) := ⟨rfl, rfl⟩

/-- Claim C6 amended: `vgDestroyTexture` performs no validity check.
Any handle below `VG_TEXTURES_MAX` — live or already empty — has its
slot unconditionally set to empty (so a live handle is indeed freed
for reuse, the part of the claim that holds) and `_texCount`
decremented, other slots untouched; releasing an already-empty handle
is thus silently "successful" (and corrupts the count) rather than an
`InvalidHandle` failure.  A handle at or above `VG_TEXTURES_MAX`
indexes `_texBuffer` out of bounds — undefined behavior, not a
reported error. -/
theorem claim_c6_release_unchecked (s : TexState) (h : Nat) :
    (h < VG_TEXTURES_MAX →
      vgDestroyTexture s h = some
        ⟨fun i => if i = h then 0 else s.texBuffer i, s.texCount - 1⟩)
    ∧ (VG_TEXTURES_MAX ≤ h → vgDestroyTexture s h = none) := by
  constructor
  · intro hin
    simp only [vgDestroyTexture, if_pos hin]
  · intro hout
    simp only [vgDestroyTexture, if_neg (by omega : ¬ h < VG_TEXTURES_MAX)]

/-- Witness for the amended C6: both branches at concrete inputs. -/
theorem claim_c6_witness :
    vgDestroyTexture ⟨fun _ => 1, 0⟩ 5 = some ⟨fun i => if i = 5 then 0 else 1, -1⟩
    ∧ vgDestroyTexture ⟨fun _ => 1, 0⟩ 2000 = none :=
  ⟨(claim_c6_release_unchecked ⟨fun _ => 1, 0⟩ 5).1 (by decide),
   (claim_c6_release_unchecked ⟨fun _ => 1, 0⟩ 2000).2 (by decide)⟩

/-- Claim C7: for every allocator state and live in-range handle `h`,
if after `vgDestroyTexture(h)` every slot below `h` is still non-empty
(`h` is the lowest-numbered free slot), the next allocation returns
`h` again — first-fit reuse. -/
theorem claim_c7_first_fit_reuse (s : TexState) (h : Nat)
    (hin : h < VG_TEXTURES_MAX) (hlive : s.texBuffer h ≠ 0)
    (s' : TexState) (hrel : vgDestroyTexture s h = some s')
    (hlow : ∀ j, j < h → s'.texBuffer j ≠ 0) (g : Nat) :
    (vgCreateTexture g s').map Prod.fst = some h := by
  have hbuf : s'.texBuffer h = 0 := by
    simp only [vgDestroyTexture, if_pos hin, Option.some.injEq] at hrel
    rw [← hrel]
    simp
  have hfind : findFreeTexture s'.texBuffer = some h := by
    apply scanSlots_eq_some _ _ _ _ (Nat.zero_le h) (by omega)
    · rw [Nat.mod_eq_of_lt hin]; exact hbuf
    · intro j _ hj
      rw [Nat.mod_eq_of_lt (by omega)]
      exact hlow j hj
  simp only [vgCreateTexture, hfind]
  rfl

/-- Witness for C7: releasing handle 5 of a fully populated table and
allocating again returns 5. -/
theorem claim_c7_witness :
    (vgCreateTexture 9 ⟨fun i => if i = 5 then 0 else 1, -1⟩).map Prod.fst = some 5 :=
  claim_c7_first_fit_reuse ⟨fun _ => 1, 0⟩ 5 (by decide) (by decide)
    ⟨fun i => if i = 5 then 0 else 1, -1⟩ (by rfl) (by decide) 9

/-- Claim C8: after `vgITexDataClear` every palette entry is
transparent black (first conjunct) and every grid cell is the unset
sentinel 0 (second conjunct), so a compile of any in-range size with
no intervening sets produces `w*h*4` zero bytes (third conjunct; the
2x2 case of the claim is the instance `w = h = 2`, 16 zero bytes). -/
theorem claim_c8_clear_then_compile_zero :
    (∀ (s : ITexState) (i : Nat), i < VG_ITEX_COLORS_MAX →
      (vgITexDataClear s).icolorR i = 0 ∧ (vgITexDataClear s).icolorG i = 0 ∧
      (vgITexDataClear s).icolorB i = 0 ∧ (vgITexDataClear s).icolorA i = 0)
    ∧ (∀ (s : ITexState) (x y : Nat), x < VG_ITEX_SIZE_MAX → y < VG_ITEX_SIZE_MAX →
      (vgITexDataClear s).indexes x y = 0)
    ∧ (∀ (s : ITexState) (w h : Nat), w ≤ VG_ITEX_SIZE_MAX → h ≤ VG_ITEX_SIZE_MAX →
      compileBuffer (vgITexDataClear s) w h = some (List.replicate (w * h * 4) 0)) := by
  refine ⟨?_, ?_, ?_⟩
  · intro s i hi
    refine ⟨?_, ?_, ?_, ?_⟩ <;> simp [vgITexDataClear, hi]
  · intro s x y hx hy
    exact clear_indexes s x y hx hy
  · intro s w h hw hh
    have hguard : ∀ i, i < w → ∀ j, j < h →
        i < VG_ITEX_SIZE_MAX ∧ j < VG_ITEX_SIZE_MAX ∧
        (vgITexDataClear s).indexes i j < VG_ITEX_COLORS_MAX := by
      intro i hi j hj
      refine ⟨by omega, by omega, ?_⟩
      rw [clear_indexes s i j (by omega) (by omega)]
      decide
    simp only [compileBuffer, if_pos hguard]
    rw [clear_gridBytes s h hh w hw, show 4 * h * w = w * h * 4 by ring]

/-- Witness for C8: the cleared 2x2 compile is 16 zero bytes. -/
theorem claim_c8_witness :
    compileBuffer (vgITexDataClear itexInit) 2 2 = some (List.replicate 16 0) :=
  claim_c8_clear_then_compile_zero.2.2 itexInit 2 2 (by decide) (by decide)

/-- Claim C9 amended: when the `malloc` of the intermediate buffer
fails, `vgITexDataCompile` returns 0 immediately: it does not call
into the render surface (`surfaceCall = none`) and leaves the texture
table — and the palette and grid, which it never writes — unchanged.
But it does not "fail with `OutOfMemory`": there is no error value;
the returned 0 is also the handle of slot 0 (see the
counterexample). -/
theorem claim_c9_malloc_failure_returns_zero (glName : Nat) (s : ITexState)
    (t : TexState) (w h : Nat) :
    vgITexDataCompile false glName s t w h = some ⟨0, t, none⟩ := rfl

/-- Claim C9 counterexample: the claim says an allocation failure makes
compile "fail with OutOfMemory".  At the same concrete input, the
failed-malloc call returns handle 0 with no surface call (first
conjunct), while a successful call from the empty table also returns
handle 0 (second conjunct): the two outcomes carry the same handle, so
the code reports no distinguishable `OutOfMemory` failure at all. -/
theorem claim_c9_counterexample :
    ((vgITexDataCompile false 7 itexInit texInit 2 2).map
        fun o => (o.handle, o.surfaceCall)) = some (0, none)
    ∧ ((vgITexDataCompile true 7 itexInit texInit 2 2).map
        fun o => o.handle) = some 0 := by
  constructor
  · rfl
  · decide

/-- Claim C10: one `vgITexDataIndexArray(index, xs, ys, n)` call with
all listed coordinates in range leaves the grid in exactly the state
produced by the `n` single-cell `vgITexDataIndex(index, xs[i], ys[i])`
calls performed in order (later entries overwriting earlier ones at
duplicate coordinates, since both sides perform the same stores in the
same order). -/
theorem claim_c10_array_equals_sequence (s : ITexState) (index : Nat)
    (ps : List (Nat × Nat))
    (hps : ∀ p ∈ ps, p.1 < VG_ITEX_SIZE_MAX ∧ p.2 < VG_ITEX_SIZE_MAX) :
    ∃ s', vgITexDataIndexArray s index ps = some s'
      ∧ seqIndexCalls s index ps = some s' := by
  induction ps generalizing s with
  | nil => exact ⟨s, rfl, rfl⟩
  | cons hd rest ih =>
    obtain ⟨x, y⟩ := hd
    have hxy := hps (x, y) (List.mem_cons_self _ _)
    obtain ⟨s', h1, h2⟩ := ih
      { s with indexes := fun a b => if a = x ∧ b = y then index else s.indexes a b }
      (fun p hp => hps p (List.mem_cons_of_mem _ hp))
    refine ⟨s', ?_, ?_⟩
    · simp only [vgITexDataIndexArray, if_pos hxy]
      exact h1
    · simp only [seqIndexCalls, vgITexDataIndex, if_pos hxy]
      exact h2

/-- Witness for C10: a concrete three-store run with a duplicate
coordinate. -/
theorem claim_c10_witness :
    ∃ s', vgITexDataIndexArray itexInit 3 [(0, 0), (1, 2), (0, 0)] = some s'
      ∧ seqIndexCalls itexInit 3 [(0, 0), (1, 2), (0, 0)] = some s' :=
  claim_c10_array_equals_sequence itexInit 3 [(0, 0), (1, 2), (0, 0)] (by decide)

end VGraphics
